import Mathlib

/-!
Shallow embedding of the `geb` PostgreSQL client library (Go).

The repository has two connection paths:
  * a direct path (`src/client.go`): `ConnectConfig`, `Connect`, `PG` with
    `Ping`/`Close`;
  * an SSH-tunnel path (`src/unnamed/part_000`): `ConnectViaSSHConfig`,
    `ConnectViaSSH`, `ViaSSHDialer`, `PGViaSSH` with `Ping`/`Close`.

External collaborators (golang.org/x/crypto/ssh, database/sql, gorm) are
modelled as an oracle (`Env`) of result-returning functions, plus small state
records for the objects they hand back (`SSHClient`, `SqlDB`, `GormDB`).
Externally visible operations are recorded in an effect trace so that
properties such as "no network dial happened" or "the session close was never
attempted" are statable.  The process-wide driver registry of `database/sql`
is threaded explicitly; `sql.Register` panics on a duplicate name, exactly as
the Go standard library does.
-/

namespace Geb

/-- An opaque error value coming back from a collaborator library. -/
structure Err where
  code : Nat
deriving DecidableEq

/-- A parsed SSH signing identity (result of `ssh.ParsePrivateKey`). -/
structure Signer where
  id : Nat
deriving DecidableEq

/-- A host key presented by the remote SSH endpoint. -/
structure HostKey where
  id : Nat
deriving DecidableEq

/-- A network connection handed back by a dial. -/
structure NetConn where
  id : Nat
deriving DecidableEq

/-- A Go `context.Context`, reduced to the one observable the claims need:
whether it has been cancelled. -/
structure Context where
  cancelled : Bool
deriving DecidableEq

/-- Go `context.Background()`. -/
def Context.background : Context :=
  { cancelled := false }

/-- A Go `time.Duration` (nanoseconds). -/
structure Duration where
  ns : Int
deriving DecidableEq

/-- One `ssh.AuthMethod` value.  The model keeps the two shapes the claims
talk about: public-key authentication and password authentication. -/
inductive AuthMethod where
  | publicKeys (signer : Signer)
  | password (secret : String)

/-- The `ssh.ClientConfig` value built by `ConnectViaSSH`:
user, authentication methods, and the host-key callback
(`none` result means the host key is accepted). -/
structure SSHClientConfig where
  user : String
  auth : List AuthMethod
  hostKeyCallback : HostKey → Option Err

/-- The `ssh.InsecureIgnoreHostKey()` callback: accepts every host key. -/
def insecureIgnoreHostKey : HostKey → Option Err :=
  fun _ => none

/-- A live `ssh.Client`: its channel-dial behaviour and the result its
`Close` would produce. -/
structure SSHClient where
  dial : String → String → Except Err NetConn
  closeResult : Option Err

/-- The `database/sql` pool handle `*sql.DB`: `PingContext` behaviour keyed
by the context it is given, and the result its `Close` would produce. -/
structure SqlDB where
  pingContext : Context → Option Err
  closeResult : Option Err

/-- Go `(*sql.DB).Ping()`: the standard library defines it as
`PingContext(context.Background())`. -/
def SqlDB.ping (db : SqlDB) : Option Err :=
  db.pingContext Context.background

/-- A `*gorm.DB`: the underlying connection pool that `DB()` returns (or the
error it fails with), plus the statement context installed by
`WithContext`. -/
structure GormDB where
  connPool : Except Err SqlDB
  stmtContext : Context

/-- Gorm `WithContext(ctx)`: installs `ctx` as the session's statement
context; the underlying pool is unchanged. -/
def GormDB.withContext (db : GormDB) (ctx : Context) : GormDB :=
  { db with stmtContext := ctx }

/-- Gorm `DB()`: returns the underlying `*sql.DB` connection pool. -/
def GormDB.DB (db : GormDB) : Except Err SqlDB :=
  db.connPool

/-- The `ViaSSHDialer` of `src/unnamed/part_000`: wraps an `ssh.Client`. -/
structure ViaSSHDialer where
  client : SSHClient

/-- `ViaSSHDialer.Dial`: delegates to the SSH client's channel dial. -/
def ViaSSHDialer.Dial (d : ViaSSHDialer) (network address : String) :
    Except Err NetConn :=
  d.client.dial network address

/-- `ViaSSHDialer.DialTimeout`: the source ignores the timeout argument and
delegates to the SSH client's plain channel dial. -/
def ViaSSHDialer.DialTimeout (d : ViaSSHDialer) (network address : String)
    (timeout : Duration) : Except Err NetConn :=
  d.client.dial network address

/-- The composite handle `PGViaSSH` of `src/unnamed/part_000`. -/
structure PGViaSSH where
  DB : GormDB
  SSHCon : SSHClient

/-- `PGViaSSH.Ping`: fetches the pool handle through
`pg.DB.WithContext(ctx).DB()` and then calls the context-free
`sqlDB.Ping()`, returning the first error met. -/
def PGViaSSH.Ping (pg : PGViaSSH) (ctx : Context) : Option Err :=
  match (pg.DB.withContext ctx).DB with
  | Except.error e => some e
  | Except.ok sqlDB => sqlDB.ping

/-- Specification-side variant of `Ping`, written from the spec's words for
the C7 comparison: the health check is scoped to the given context. -/
def PGViaSSH.PingScoped (pg : PGViaSSH) (ctx : Context) : Option Err :=
  match (pg.DB.withContext ctx).DB with
  | Except.error e => some e
  | Except.ok sqlDB => sqlDB.pingContext ctx

/-- The two close operations `PGViaSSH.Close` can attempt, recorded in the
order they are attempted. -/
inductive CloseStep where
  | sqlClose
  | sshClose
deriving DecidableEq

/-- `PGViaSSH.Close`: fetches the pool handle, closes it, and — only when
that close returned no error — closes the SSH client.  The returned pair is
the surfaced error (as in the source) together with the list of close
operations that were attempted (the observable the claims need). -/
def PGViaSSH.Close (pg : PGViaSSH) (ctx : Context) :
    Option Err × List CloseStep :=
  match (pg.DB.withContext ctx).DB with
  | Except.error e => (some e, [])
  | Except.ok sqlDB =>
    match sqlDB.closeResult with
    | some e => (some e, [CloseStep.sqlClose])
    | none =>
      match pg.SSHCon.closeResult with
      | some e => (some e, [CloseStep.sqlClose, CloseStep.sshClose])
      | none => (none, [CloseStep.sqlClose, CloseStep.sshClose])

/-- `ConnectViaSSHConfig` of `src/unnamed/part_000`. -/
structure ConnectViaSSHConfig where
  sshHost : String
  sshPort : Int
  sshUser : String
  sshPrivateKey : String
  dbHost : String
  dbPort : Int
  dbUser : String
  dbPassword : String
  dbName : String
  maxIdleCon : Int

/-- The `fmt.Sprintf("%s:%d", conf.SSHHost, conf.SSHPort)` address. -/
def sshAddr (conf : ConnectViaSSHConfig) : String :=
  conf.sshHost ++ ":" ++ toString conf.sshPort

/-- The key-value DSN format string shared by both connection paths. -/
def mkDSN (host : String) (port : Int) (user password name : String) :
    String :=
  "host=" ++ host ++ " port=" ++ toString port ++ " user=" ++ user ++
  " password=" ++ password ++ " dbname=" ++ name ++
  " application_name=xl_pgclient TimeZone=UTC"

/-- The DSN `ConnectViaSSH` builds from its configuration. -/
def dsnOf (conf : ConnectViaSSHConfig) : String :=
  mkDSN conf.dbHost conf.dbPort conf.dbUser conf.dbPassword conf.dbName

/-- The `ssh.ClientConfig` literal built inside `ConnectViaSSH`: the given
user, exactly one public-key authentication method derived from the parsed
signer, and the accept-all host-key callback. -/
def mkSSHClientConfig (user : String) (signer : Signer) : SSHClientConfig :=
  { user := user
    auth := [AuthMethod.publicKeys signer]
    hostKeyCallback := insecureIgnoreHostKey }

/-- The constant driver name `ConnectViaSSH` registers its dialer under. -/
def driverName : String :=
  "postgres+ssh"

/-- The process-wide `database/sql` driver registry: name/dialer pairs in
registration order (most recent first). -/
abbrev Registry : Type :=
  List (String × ViaSSHDialer)

/-- The driver names present in a registry. -/
def registryNames (reg : Registry) : List String :=
  List.map Prod.fst reg

/-- Whether a driver name is already registered (the duplicate check
`database/sql.Register` performs before panicking). -/
def registered (reg : Registry) (name : String) : Bool :=
  List.any reg (fun p => p.fst == name)

/-- The externally visible operations `ConnectViaSSH` performs, in order. -/
inductive Effect where
  | sshDial (network : String) (addr : String) (cfg : SSHClientConfig)
  | registerDriver (name : String)
  | sqlOpen (driver : String) (dsn : String)
  | gormOpen
  | poolFetch
  | setMaxIdleConns (n : Int)
  | sshClose

/-- Recognises the session-close effect (never emitted by
`ConnectViaSSH`, which is the C10 leak observation). -/
def closesSSH : Effect → Bool
  | Effect.sshClose => true
  | _ => false

/-- What one call to `ConnectViaSSH` produces: the outcome (a panic from
`sql.Register`, an error return, or a handle), the driver registry after the
call, and the effect trace. -/
inductive Outcome (α : Type) where
  | panicked
  | errored (e : Err)
  | ok (a : α)

structure ConnResult where
  outcome : Outcome PGViaSSH
  registry : Registry
  trace : List Effect

/-- The oracle for the collaborator libraries `ConnectViaSSH` calls:
`ssh.ParsePrivateKey`, `ssh.Dial`, `sql.Open`, `gorm.Open`. -/
structure Env where
  parsePrivateKey : String → Except Err Signer
  sshDial : String → String → SSHClientConfig → Except Err SSHClient
  sqlOpen : String → String → Except Err SqlDB
  gormOpen : SqlDB → Except Err GormDB

/-- `ConnectViaSSH` of `src/unnamed/part_000`, step by step as in the
source: parse the private key; dial `tcp` to `host:port` with a config of
one public-key auth method and `InsecureIgnoreHostKey`; register the dialer
under the constant name `"postgres+ssh"` (`sql.Register` panics when the
name is already present); `sql.Open` with the DSN; `gorm.Open`; fetch the
pool handle with `db.DB()`; `SetMaxIdleConns`; return the handle.  Every
error returns immediately; no branch closes the SSH client. -/
def ConnectViaSSH (env : Env) (reg : Registry) (conf : ConnectViaSSHConfig) :
    ConnResult :=
  match env.parsePrivateKey conf.sshPrivateKey with
  | Except.error e => ⟨Outcome.errored e, reg, []⟩
  | Except.ok signer =>
    let sshConfig := mkSSHClientConfig conf.sshUser signer
    let addr := sshAddr conf
    match env.sshDial "tcp" addr sshConfig with
    | Except.error e =>
      ⟨Outcome.errored e, reg, [Effect.sshDial "tcp" addr sshConfig]⟩
    | Except.ok sshcon =>
      if registered reg driverName then
        ⟨Outcome.panicked, reg, [Effect.sshDial "tcp" addr sshConfig]⟩
      else
        let reg2 : Registry := (driverName, ViaSSHDialer.mk sshcon) :: reg
        let dsn := dsnOf conf
        match env.sqlOpen driverName dsn with
        | Except.error e =>
          ⟨Outcome.errored e, reg2,
            [Effect.sshDial "tcp" addr sshConfig,
             Effect.registerDriver driverName,
             Effect.sqlOpen driverName dsn]⟩
        | Except.ok sqldb =>
          match env.gormOpen sqldb with
          | Except.error e =>
            ⟨Outcome.errored e, reg2,
              [Effect.sshDial "tcp" addr sshConfig,
               Effect.registerDriver driverName,
               Effect.sqlOpen driverName dsn,
               Effect.gormOpen]⟩
          | Except.ok db =>
            match GormDB.DB db with
            | Except.error e =>
              ⟨Outcome.errored e, reg2,
                [Effect.sshDial "tcp" addr sshConfig,
                 Effect.registerDriver driverName,
                 Effect.sqlOpen driverName dsn,
                 Effect.gormOpen,
                 Effect.poolFetch]⟩
            | Except.ok _sqlDB =>
              ⟨Outcome.ok { DB := db, SSHCon := sshcon }, reg2,
                [Effect.sshDial "tcp" addr sshConfig,
                 Effect.registerDriver driverName,
                 Effect.sqlOpen driverName dsn,
                 Effect.gormOpen,
                 Effect.poolFetch,
                 Effect.setMaxIdleConns conf.maxIdleCon]⟩

/-- `ConnectConfig` of `src/client.go`: the direct path's configuration.
The source has exactly these fields; in particular there is no
open-connection ceiling. -/
structure ConnectConfig where
  dbHost : String
  dbPort : Int
  dbUser : String
  dbPassword : String
  dbName : String
  maxIdleCon : Int

/-- The direct path's handle. -/
structure PG where
  DB : GormDB

/-- A connection-pool setting applied to an opened `*sql.DB`. -/
inductive PoolSetting where
  | maxIdle (n : Int)
  | maxOpen (n : Int)
deriving DecidableEq

/-- Oracle for the direct path: `gorm.Open(postgres.Open(dsn), ...)`. -/
structure DirectEnv where
  gormOpenDSN : String → Except Err GormDB

/-- The DSN `Connect` builds from its configuration. -/
def dsnOfDirect (conf : ConnectConfig) : String :=
  mkDSN conf.dbHost conf.dbPort conf.dbUser conf.dbPassword conf.dbName

/-- `Connect` of `src/client.go`: build the DSN, `gorm.Open`, fetch the pool
handle, apply `SetMaxIdleConns`, return the handle.  The second component
lists the pool settings applied: the source calls only
`SetMaxIdleConns(conf.MaxIdleCon)`. -/
def Connect (env : DirectEnv) (conf : ConnectConfig) :
    Outcome PG × List PoolSetting :=
  match env.gormOpenDSN (dsnOfDirect conf) with
  | Except.error e => (Outcome.errored e, [])
  | Except.ok db =>
    match GormDB.DB db with
    | Except.error e => (Outcome.errored e, [])
    | Except.ok _sqlDB =>
      (Outcome.ok { DB := db }, [PoolSetting.maxIdle conf.maxIdleCon])

/-! Concrete collaborators used by witnesses and counterexamples. -/

def errKey : Err := ⟨1⟩

def errSqlClose : Err := ⟨2⟩

def errSshClose : Err := ⟨3⟩

def errPing : Err := ⟨4⟩

def errSqlOpen : Err := ⟨5⟩

def sqlDbOk : SqlDB :=
  { pingContext := fun _ => none, closeResult := none }

def gormDbOk : GormDB :=
  { connPool := Except.ok sqlDbOk, stmtContext := Context.background }

def sshClientOk : SSHClient :=
  { dial := fun _ _ => Except.ok ⟨0⟩, closeResult := none }

/-- An environment in which every collaborator call succeeds. -/
def envOk : Env :=
  { parsePrivateKey := fun _ => Except.ok ⟨0⟩
    sshDial := fun _ _ _ => Except.ok sshClientOk
    sqlOpen := fun _ _ => Except.ok sqlDbOk
    gormOpen := fun _ => Except.ok gormDbOk }

/-- An environment whose private-key parse fails. -/
def envBadKey : Env :=
  { envOk with parsePrivateKey := fun _ => Except.error errKey }

/-- An environment in which the tunnel opens but `sql.Open` fails. -/
def envSqlOpenFails : Env :=
  { envOk with sqlOpen := fun _ _ => Except.error errSqlOpen }

def confOk : ConnectViaSSHConfig :=
  { sshHost := "bastion", sshPort := 22, sshUser := "u"
    sshPrivateKey := "PEM", dbHost := "db", dbPort := 5432
    dbUser := "dbu", dbPassword := "pw", dbName := "app", maxIdleCon := 10 }

def ctx0 : Context := { cancelled := false }

def ctxCancelled : Context := { cancelled := true }

/-- A handle whose database-client close fails while the session close
would succeed or fail independently: exercises the C1 close path. -/
def pgCloseFails : PGViaSSH :=
  { DB := { connPool := Except.ok
              { pingContext := fun _ => none
                closeResult := some errSqlClose }
            stmtContext := Context.background }
    SSHCon := { dial := fun _ _ => Except.ok ⟨0⟩
                closeResult := some errSshClose } }

/-- A handle whose client close succeeds and whose session close fails. -/
def pgSshCloseFails : PGViaSSH :=
  { DB := gormDbOk
    SSHCon := { dial := fun _ _ => Except.ok ⟨0⟩
                closeResult := some errSshClose } }

/-- A handle whose pool reports an error exactly when pinged with a
cancelled context: exercises the C7 ping path. -/
def pgPingCtx : PGViaSSH :=
  { DB := { connPool := Except.ok
              { pingContext := fun c =>
                  if c.cancelled then some errPing else none
                closeResult := none }
            stmtContext := Context.background }
    SSHCon := sshClientOk }

/-- A registry that already holds the constant driver name. -/
def regOne : Registry :=
  [(driverName, ViaSSHDialer.mk sshClientOk)]

def envDirectOk : DirectEnv :=
  { gormOpenDSN := fun _ => Except.ok gormDbOk }

def confDirect : ConnectConfig :=
  { dbHost := "localhost", dbPort := 5432, dbUser := "postgres"
    dbPassword := "pw", dbName := "app", maxIdleCon := 10 }

/-!
Theorems settling the claims.
-/

/-- C1, counterexample.  The claim says a failing client close still leads
to an attempted session close, with the session-close error surfaced.  On
`pgCloseFails` the client close fails with `errSqlClose`: `Close` surfaces
exactly that client-close error and the attempted-steps list is
`[sqlClose]` — the session close (whose error would be `errSshClose`) is
never attempted. -/
theorem C1_close_counterexample :
    PGViaSSH.Close pgCloseFails ctx0 = (some errSqlClose, [CloseStep.sqlClose])
    ∧ pgCloseFails.SSHCon.closeResult = some errSshClose :=
  ⟨rfl, rfl⟩

/-- C1, amended.  `Close` closes the database client handle first; when
that close fails its error is returned immediately and the session close is
not attempted; only when the client close succeeds is the session close
attempted, and then the session's close result is what is surfaced. -/
theorem C1_close_order (pg : PGViaSSH) (ctx : Context) (sqlDB : SqlDB)
    (h : (pg.DB.withContext ctx).DB = Except.ok sqlDB) :
    (∀ e, sqlDB.closeResult = some e →
      PGViaSSH.Close pg ctx = (some e, [CloseStep.sqlClose]))
    ∧ (sqlDB.closeResult = none →
      PGViaSSH.Close pg ctx =
        (pg.SSHCon.closeResult, [CloseStep.sqlClose, CloseStep.sshClose])) := by
  constructor
  · intro e he
    simp [PGViaSSH.Close, h, he]
  · intro he
    cases hs : pg.SSHCon.closeResult <;> simp [PGViaSSH.Close, h, he, hs]

/-- C1, witness: the amended close ordering evaluated on concrete handles,
one with a failing client close and one with a failing session close. -/
theorem C1_close_order_witness :
    PGViaSSH.Close pgCloseFails ctx0 = (some errSqlClose, [CloseStep.sqlClose])
    ∧ PGViaSSH.Close pgSshCloseFails ctx0 =
        (some errSshClose, [CloseStep.sqlClose, CloseStep.sshClose]) :=
  ⟨(C1_close_order pgCloseFails ctx0
      { pingContext := fun _ => none, closeResult := some errSqlClose } rfl).1
      errSqlClose rfl,
   (C1_close_order pgSshCloseFails ctx0 sqlDbOk rfl).2 rfl⟩

/-- C3.  When the private-key material fails to parse, `ConnectViaSSH`
returns exactly that parse error, leaves the driver registry untouched, and
its effect trace is empty — in particular no network dial happens. -/
theorem C3_bad_key_aborts_before_io (env : Env) (reg : Registry)
    (conf : ConnectViaSSHConfig) (e : Err)
    (hp : env.parsePrivateKey conf.sshPrivateKey = Except.error e) :
    ConnectViaSSH env reg conf = ⟨Outcome.errored e, reg, []⟩ := by
  simp [ConnectViaSSH, hp]

/-- C3, witness: in an environment whose key parse fails with `errKey`, the
call returns that error with an empty effect trace. -/
theorem C3_bad_key_aborts_before_io_witness :
    ConnectViaSSH envBadKey [] confOk = ⟨Outcome.errored errKey, [], []⟩ :=
  C3_bad_key_aborts_before_io envBadKey [] confOk errKey rfl

/-- C4.  `DialTimeout` returns exactly what `Dial` returns on the same
dialer, network and address, for every timeout value: the timeout argument
is ignored. -/
theorem C4_dialtimeout_eq_dial (d : ViaSSHDialer) (network address : String)
    (t : Duration) :
    ViaSSHDialer.DialTimeout d network address t =
      ViaSSHDialer.Dial d network address :=
  rfl

/-- C5.  Whenever the key parses to signer `s`, the first effect of
`ConnectViaSSH` is the SSH dial with the client config built from `s`, and
that config carries exactly one auth method — public key from `s` (so no
password fallback) — and a host-key callback accepting every host key. -/
theorem C5_pubkey_only_hostkey_ignored (env : Env) (reg : Registry)
    (conf : ConnectViaSSHConfig) (s : Signer)
    (hp : env.parsePrivateKey conf.sshPrivateKey = Except.ok s) :
    (ConnectViaSSH env reg conf).trace.head? =
      some (Effect.sshDial "tcp" (sshAddr conf) (mkSSHClientConfig conf.sshUser s))
    ∧ (mkSSHClientConfig conf.sshUser s).auth = [AuthMethod.publicKeys s]
    ∧ ∀ k, (mkSSHClientConfig conf.sshUser s).hostKeyCallback k = none := by
  refine ⟨?_, rfl, fun k => rfl⟩
  cases hd : env.sshDial "tcp" (sshAddr conf) (mkSSHClientConfig conf.sshUser s) with
  | error e => simp [ConnectViaSSH, hp, hd]
  | ok c =>
    by_cases hr : registered reg driverName = true
    · simp [ConnectViaSSH, hp, hd, hr]
    · cases hq : env.sqlOpen driverName (dsnOf conf) with
      | error e => simp [ConnectViaSSH, hp, hd, hr, hq]
      | ok d =>
        cases hg : env.gormOpen d with
        | error e2 => simp [ConnectViaSSH, hp, hd, hr, hq, hg]
        | ok g =>
          cases hdb : GormDB.DB g with
          | error e3 => simp [ConnectViaSSH, hp, hd, hr, hq, hg, hdb]
          | ok p => simp [ConnectViaSSH, hp, hd, hr, hq, hg, hdb]

/-- C5, witness: the auth-and-host-key property evaluated in `envOk`. -/
theorem C5_pubkey_only_hostkey_ignored_witness :
    (ConnectViaSSH envOk [] confOk).trace.head? =
      some (Effect.sshDial "tcp" (sshAddr confOk)
        (mkSSHClientConfig confOk.sshUser ⟨0⟩))
    ∧ (mkSSHClientConfig confOk.sshUser ⟨0⟩).auth = [AuthMethod.publicKeys ⟨0⟩]
    ∧ ∀ k, (mkSSHClientConfig confOk.sshUser ⟨0⟩).hostKeyCallback k = none :=
  C5_pubkey_only_hostkey_ignored envOk [] confOk ⟨0⟩ rfl

/-- C7, counterexample.  On `pgPingCtx` with a cancelled context, the
code's `Ping` succeeds while the spec-described context-scoped health check
fails: the health check performed by `Ping` does not observe the given
context's cancellation. -/
theorem C7_ping_counterexample :
    PGViaSSH.Ping pgPingCtx ctxCancelled = none
    ∧ PGViaSSH.PingScoped pgPingCtx ctxCancelled = some errPing :=
  ⟨rfl, rfl⟩

/-- C2, counterexample.  Driver identifiers are not fresh: the first call
records the constant name `"postgres+ssh"`, and a second call that reaches
the registration step attempts the very same name — it panics in
`sql.Register` and records nothing, so the two calls' names are not
distinct. -/
theorem C2_register_counterexample :
    registryNames (ConnectViaSSH envOk [] confOk).registry = ["postgres+ssh"]
    ∧ (ConnectViaSSH envOk (ConnectViaSSH envOk [] confOk).registry
        confOk).outcome = Outcome.panicked
    ∧ (ConnectViaSSH envOk (ConnectViaSSH envOk [] confOk).registry
        confOk).registry = (ConnectViaSSH envOk [] confOk).registry :=
  ⟨rfl, rfl, rfl⟩

/-- C2, amended.  Every call that reaches the registration step uses the
same constant driver name `"postgres+ssh"` instead of a fresh one: when the
name is not yet registered it is the one name added to the registry, and
when it is already registered the call panics and records nothing. -/
theorem C2_constant_not_fresh (env : Env) (reg : Registry)
    (conf : ConnectViaSSHConfig) (s : Signer) (c : SSHClient)
    (hp : env.parsePrivateKey conf.sshPrivateKey = Except.ok s)
    (hd : env.sshDial "tcp" (sshAddr conf) (mkSSHClientConfig conf.sshUser s) =
      Except.ok c) :
    driverName = "postgres+ssh"
    ∧ (registered reg driverName = false →
      registryNames (ConnectViaSSH env reg conf).registry =
        driverName :: registryNames reg)
    ∧ (registered reg driverName = true →
      (ConnectViaSSH env reg conf).outcome = Outcome.panicked) := by
  refine ⟨rfl, ?_, ?_⟩
  · intro hr
    cases hq : env.sqlOpen driverName (dsnOf conf) with
    | error e => simp [ConnectViaSSH, registryNames, hp, hd, hr, hq]
    | ok d =>
      cases hg : env.gormOpen d with
      | error e2 =>
        simp [ConnectViaSSH, registryNames, hp, hd, hr, hq, hg]
      | ok g =>
        cases hdb : GormDB.DB g with
        | error e3 =>
          simp [ConnectViaSSH, registryNames, hp, hd, hr, hq, hg, hdb]
        | ok p =>
          simp [ConnectViaSSH, registryNames, hp, hd, hr, hq, hg, hdb]
  · intro hr
    simp [ConnectViaSSH, hp, hd, hr]

/-- C2, witness: on the first call from an empty registry the one recorded
name is the constant `"postgres+ssh"`. -/
theorem C2_constant_not_fresh_witness :
    registryNames (ConnectViaSSH envOk [] confOk).registry = ["postgres+ssh"] := by
  have h := (C2_constant_not_fresh envOk [] confOk ⟨0⟩ sshClientOk rfl rfl).2.1 rfl
  simpa [registryNames, driverName] using h

/-- C6.  Construction is all-or-nothing: `ConnectViaSSH` returns a handle
exactly when the key parse, the SSH dial, the driver registration (no
duplicate), `sql.Open`, `gorm.Open` and the pool-handle fetch all succeed,
and it returns error `e` exactly when the first failing step fails with
`e`. -/
theorem C6_all_or_nothing (env : Env) (reg : Registry)
    (conf : ConnectViaSSHConfig) :
    ((∃ pg, (ConnectViaSSH env reg conf).outcome = Outcome.ok pg) ↔
      (∃ s, env.parsePrivateKey conf.sshPrivateKey = Except.ok s ∧
       ∃ c, env.sshDial "tcp" (sshAddr conf) (mkSSHClientConfig conf.sshUser s) =
          Except.ok c ∧
       registered reg driverName = false ∧
       ∃ d, env.sqlOpen driverName (dsnOf conf) = Except.ok d ∧
       ∃ g, env.gormOpen d = Except.ok g ∧
       ∃ p, GormDB.DB g = Except.ok p))
    ∧ ∀ e, ((ConnectViaSSH env reg conf).outcome = Outcome.errored e ↔
        (env.parsePrivateKey conf.sshPrivateKey = Except.error e
         ∨ (∃ s, env.parsePrivateKey conf.sshPrivateKey = Except.ok s ∧
             env.sshDial "tcp" (sshAddr conf) (mkSSHClientConfig conf.sshUser s) =
               Except.error e)
         ∨ (∃ s c, env.parsePrivateKey conf.sshPrivateKey = Except.ok s ∧
             env.sshDial "tcp" (sshAddr conf) (mkSSHClientConfig conf.sshUser s) =
               Except.ok c ∧
             registered reg driverName = false ∧
             env.sqlOpen driverName (dsnOf conf) = Except.error e)
         ∨ (∃ s c d, env.parsePrivateKey conf.sshPrivateKey = Except.ok s ∧
             env.sshDial "tcp" (sshAddr conf) (mkSSHClientConfig conf.sshUser s) =
               Except.ok c ∧
             registered reg driverName = false ∧
             env.sqlOpen driverName (dsnOf conf) = Except.ok d ∧
             env.gormOpen d = Except.error e)
         ∨ (∃ s c d g, env.parsePrivateKey conf.sshPrivateKey = Except.ok s ∧
             env.sshDial "tcp" (sshAddr conf) (mkSSHClientConfig conf.sshUser s) =
               Except.ok c ∧
             registered reg driverName = false ∧
             env.sqlOpen driverName (dsnOf conf) = Except.ok d ∧
             env.gormOpen d = Except.ok g ∧
             GormDB.DB g = Except.error e))) := by
  cases hp : env.parsePrivateKey conf.sshPrivateKey with
  | error e0 => simp [ConnectViaSSH, hp]
  | ok s0 =>
    cases hd : env.sshDial "tcp" (sshAddr conf) (mkSSHClientConfig conf.sshUser s0) with
    | error e0 => simp [ConnectViaSSH, hp, hd]
    | ok c0 =>
      by_cases hr : registered reg driverName = true
      · simp [ConnectViaSSH, hp, hd, hr]
      · simp only [Bool.not_eq_true] at hr
        cases hq : env.sqlOpen driverName (dsnOf conf) with
        | error e0 => simp [ConnectViaSSH, hp, hd, hr, hq]
        | ok d0 =>
          cases hg : env.gormOpen d0 with
          | error e0 => simp [ConnectViaSSH, hp, hd, hr, hq, hg]
          | ok g0 =>
            cases hdb : GormDB.DB g0 with
            | error e0 => simp [ConnectViaSSH, hp, hd, hr, hq, hg, hdb]
            | ok p0 => simp [ConnectViaSSH, hp, hd, hr, hq, hg, hdb]

/-- C6, witness: in `envOk` every step succeeds and a handle is returned. -/
theorem C6_all_or_nothing_witness :
    ∃ pg, (ConnectViaSSH envOk [] confOk).outcome = Outcome.ok pg :=
  (C6_all_or_nothing envOk [] confOk).1.mpr
    ⟨⟨0⟩, rfl, sshClientOk, rfl, rfl, sqlDbOk, rfl, gormDbOk, rfl, sqlDbOk, rfl⟩

/-- C8.  The direct path applies only the idle-connection ceiling: on the
README's direct-connection parameters the one pool setting applied is
`SetMaxIdleConns 10`, and in general `Connect` applies either no pool
setting (on failure) or exactly the idle ceiling — never an
open-connection ceiling. -/
theorem C8_only_idle_ceiling :
    (Connect envDirectOk confDirect).2 = [PoolSetting.maxIdle 10]
    ∧ ∀ (env : DirectEnv) (conf : ConnectConfig),
        (Connect env conf).2 = []
        ∨ (Connect env conf).2 = [PoolSetting.maxIdle conf.maxIdleCon] := by
  refine ⟨rfl, ?_⟩
  intro env conf
  cases h : env.gormOpenDSN (dsnOfDirect conf) with
  | error e =>
    left
    simp [Connect, h]
  | ok db =>
    cases hdb : GormDB.DB db with
    | error e =>
      left
      simp [Connect, h, hdb]
    | ok p =>
      right
      simp [Connect, h, hdb]

/-- C9.  The dialer is always registered under the constant name
`"postgres+ssh"`: when that name is free, the call's registry gains exactly
the pair of that name and the dialer wrapping the dialed SSH client; when
the name is already present, `sql.Register` panics and the registry is
unchanged. -/
theorem C9_constant_name_panics (env : Env) (reg : Registry)
    (conf : ConnectViaSSHConfig) (s : Signer) (c : SSHClient)
    (hp : env.parsePrivateKey conf.sshPrivateKey = Except.ok s)
    (hd : env.sshDial "tcp" (sshAddr conf) (mkSSHClientConfig conf.sshUser s) =
      Except.ok c) :
    driverName = "postgres+ssh"
    ∧ (registered reg driverName = false →
        (ConnectViaSSH env reg conf).registry =
          (driverName, ViaSSHDialer.mk c) :: reg)
    ∧ (registered reg driverName = true →
        (ConnectViaSSH env reg conf).outcome = Outcome.panicked
        ∧ (ConnectViaSSH env reg conf).registry = reg) := by
  refine ⟨rfl, ?_, ?_⟩
  · intro hr
    cases hq : env.sqlOpen driverName (dsnOf conf) with
    | error e => simp [ConnectViaSSH, hp, hd, hr, hq]
    | ok d =>
      cases hg : env.gormOpen d with
      | error e2 => simp [ConnectViaSSH, hp, hd, hr, hq, hg]
      | ok g =>
        cases hdb : GormDB.DB g with
        | error e3 => simp [ConnectViaSSH, hp, hd, hr, hq, hg, hdb]
        | ok p => simp [ConnectViaSSH, hp, hd, hr, hq, hg, hdb]
  · intro hr
    constructor <;> simp [ConnectViaSSH, hp, hd, hr]

/-- C9, witness: a first call from the empty registry records the constant
entry, and a call in a process where the name is already registered
panics. -/
theorem C9_constant_name_panics_witness :
    (ConnectViaSSH envOk [] confOk).registry = regOne
    ∧ (ConnectViaSSH envOk regOne confOk).outcome = Outcome.panicked :=
  ⟨(C9_constant_name_panics envOk [] confOk ⟨0⟩ sshClientOk rfl rfl).2.1 rfl,
   ((C9_constant_name_panics envOk regOne confOk ⟨0⟩ sshClientOk rfl rfl).2.2
      rfl).1⟩

/-- C10.  When the SSH dial succeeds and a later step (`sql.Open`,
`gorm.Open` or the pool-handle fetch) fails, `ConnectViaSSH` returns that
step's error while the trace shows the tunnel was dialed and contains no
session-close effect: the opened Tunnel Session is leaked. -/
theorem C10_session_leak (env : Env) (reg : Registry)
    (conf : ConnectViaSSHConfig) (s : Signer) (c : SSHClient) (e : Err)
    (hp : env.parsePrivateKey conf.sshPrivateKey = Except.ok s)
    (hd : env.sshDial "tcp" (sshAddr conf) (mkSSHClientConfig conf.sshUser s) =
      Except.ok c)
    (hr : registered reg driverName = false)
    (hfail : env.sqlOpen driverName (dsnOf conf) = Except.error e
      ∨ (∃ d, env.sqlOpen driverName (dsnOf conf) = Except.ok d ∧
          env.gormOpen d = Except.error e)
      ∨ (∃ d g, env.sqlOpen driverName (dsnOf conf) = Except.ok d ∧
          env.gormOpen d = Except.ok g ∧ GormDB.DB g = Except.error e)) :
    (ConnectViaSSH env reg conf).outcome = Outcome.errored e
    ∧ Effect.sshDial "tcp" (sshAddr conf) (mkSSHClientConfig conf.sshUser s)
        ∈ (ConnectViaSSH env reg conf).trace
    ∧ List.filter closesSSH (ConnectViaSSH env reg conf).trace = [] := by
  rcases hfail with hq | ⟨d, hq, hg⟩ | ⟨d, g, hq, hg, hdb⟩
  · have hres : ConnectViaSSH env reg conf =
        ⟨Outcome.errored e, (driverName, ViaSSHDialer.mk c) :: reg,
          [Effect.sshDial "tcp" (sshAddr conf) (mkSSHClientConfig conf.sshUser s),
           Effect.registerDriver driverName,
           Effect.sqlOpen driverName (dsnOf conf)]⟩ := by
      simp [ConnectViaSSH, hp, hd, hr, hq]
    rw [hres]
    exact ⟨rfl, by simp, rfl⟩
  · have hres : ConnectViaSSH env reg conf =
        ⟨Outcome.errored e, (driverName, ViaSSHDialer.mk c) :: reg,
          [Effect.sshDial "tcp" (sshAddr conf) (mkSSHClientConfig conf.sshUser s),
           Effect.registerDriver driverName,
           Effect.sqlOpen driverName (dsnOf conf),
           Effect.gormOpen]⟩ := by
      simp [ConnectViaSSH, hp, hd, hr, hq, hg]
    rw [hres]
    exact ⟨rfl, by simp, rfl⟩
  · have hres : ConnectViaSSH env reg conf =
        ⟨Outcome.errored e, (driverName, ViaSSHDialer.mk c) :: reg,
          [Effect.sshDial "tcp" (sshAddr conf) (mkSSHClientConfig conf.sshUser s),
           Effect.registerDriver driverName,
           Effect.sqlOpen driverName (dsnOf conf),
           Effect.gormOpen,
           Effect.poolFetch]⟩ := by
      simp [ConnectViaSSH, hp, hd, hr, hq, hg, hdb]
    rw [hres]
    exact ⟨rfl, by simp, rfl⟩

/-- C10, witness: with a failing `sql.Open`, the tunnel is dialed, the call
errors, and no session close appears in the trace. -/
theorem C10_session_leak_witness :
    (ConnectViaSSH envSqlOpenFails [] confOk).outcome = Outcome.errored errSqlOpen
    ∧ Effect.sshDial "tcp" (sshAddr confOk)
        (mkSSHClientConfig confOk.sshUser ⟨0⟩)
        ∈ (ConnectViaSSH envSqlOpenFails [] confOk).trace
    ∧ List.filter closesSSH (ConnectViaSSH envSqlOpenFails [] confOk).trace = [] :=
  C10_session_leak envSqlOpenFails [] confOk ⟨0⟩ sshClientOk errSqlOpen rfl rfl
    rfl (Or.inl rfl)

/-- C7, amended.  `Ping` delegates to the underlying client's health check
under the background context: its result depends only on the database
client handle — neither the given context nor the Tunnel Session field
affects it — so `Ping` never touches the Tunnel Session. -/
theorem C7_ping_background (pg : PGViaSSH) (ctx : Context) :
    PGViaSSH.Ping pg ctx =
      (match pg.DB.connPool with
       | Except.error e => some e
       | Except.ok sqlDB => sqlDB.pingContext Context.background)
    ∧ ∀ (ctx2 : Context) (ssh2 : SSHClient),
        PGViaSSH.Ping { DB := pg.DB, SSHCon := ssh2 } ctx2 =
          PGViaSSH.Ping pg ctx := by
  cases h : pg.DB.connPool <;>
    simp [PGViaSSH.Ping, GormDB.withContext, GormDB.DB, SqlDB.ping, h]

end Geb
